import Mathlib

/-!
Verification of the context-orchestrator core (package `col`).

Shallow embedding of the repository source:
  * `src/col/schema.py`        — Context, SuggestedContextUpdates, ModelResponse
  * `src/col/core/merger.py`   — `_dedupe_append`, `merge_updates`
  * `src/col/core/prompt_builder.py` — `SYSTEM_PROMPT_TEMPLATE`, `_format_list`, `build_prompt`
  * `src/col/core/orchestrator.py`   — `run_completion`, `_write_run_artifact`, `InvalidResponseError`
  * `src/col/storage.py`       — `save_context`, `init_context`

Python lists of strings become `List String`; Python sets are modelled as
lists queried with membership (string equality is decidable, so the set is
extensionally the list of members); dicts built by the code in a fixed key
order become association lists in that insertion order; functions that raise
become `Except`-valued functions; file-system effects become explicit event
traces or association-list file systems.
-/

namespace Col

/-- Embeds `Context` from `src/col/schema.py`: goal plus five ordered
sequences of strings. Pydantic defaults (empty string, empty lists) are the
constructor arguments chosen at each use site. -/
structure Context where
  goal : String
  constraints : List String
  facts : List String
  decisions : List String
  tool_outputs : List String
  open_questions : List String
deriving DecidableEq, Repr

/-- Embeds `SuggestedContextUpdates` from `src/col/schema.py`: the five
sequence fields in their declaration order; there is no goal field. -/
structure SuggestedContextUpdates where
  facts : List String
  decisions : List String
  constraints : List String
  tool_outputs : List String
  open_questions : List String
deriving DecidableEq, Repr

/-- Embeds `ModelResponse` from `src/col/schema.py`: a required string
answer and suggested updates defaulting to all-empty. -/
structure ModelResponse where
  answer : String
  suggested_context_updates : SuggestedContextUpdates
deriving DecidableEq, Repr

/-- The all-empty `SuggestedContextUpdates`, the pydantic default value of
the `suggested_context_updates` field. -/
def emptyUpdates : SuggestedContextUpdates :=
  ⟨[], [], [], [], []⟩

/-! ## Merge engine (`src/col/core/merger.py`) -/

/-- Loop body of `_dedupe_append` (`merger.py` lines 22-26): `seen` is the
membership set `existing_set`, `result` and `added` the two accumulating
lists; each candidate item not in the set is appended to both lists and
added to the set. -/
def dedupe_go (seen result added : List String) : List String → List String × List String
  | [] => (result, added)
  | item :: rest =>
    if item ∈ seen then dedupe_go seen result added rest
    else dedupe_go (item :: seen) (result ++ [item]) (added ++ [item]) rest

/-- Embeds `_dedupe_append` (`merger.py` lines 8-28): the set starts as the
set of `existing`, the result as a copy of `existing`, `added` as empty. -/
def dedupe_append (existing new_items : List String) : List String × List String :=
  dedupe_go existing existing [] new_items

/-- The items `_dedupe_append` actually adds: candidates not already in
`existing` and not already added earlier in the same call, kept in their
given order. -/
def added_items (existing : List String) : List String → List String
  | [] => []
  | item :: rest =>
    if item ∈ existing then added_items existing rest
    else item :: added_items (item :: existing) rest

/-- Embeds `merge_updates` (`merger.py` lines 31-84). Fields are processed
in the source order facts, decisions, constraints, tool_outputs,
open_questions; the changes dict is an association list in that insertion
order, a field appearing only when its added list is nonempty (Python
truthiness of a list); the new context copies `goal` unchanged. -/
def merge_updates (context : Context) (updates : SuggestedContextUpdates) :
    Context × List (String × List String) :=
  let pf := dedupe_append context.facts updates.facts
  let pd := dedupe_append context.decisions updates.decisions
  let pc := dedupe_append context.constraints updates.constraints
  let pt := dedupe_append context.tool_outputs updates.tool_outputs
  let pq := dedupe_append context.open_questions updates.open_questions
  let changes :=
    (if pf.2 = [] then [] else [("facts", pf.2)]) ++
    (if pd.2 = [] then [] else [("decisions", pd.2)]) ++
    (if pc.2 = [] then [] else [("constraints", pc.2)]) ++
    (if pt.2 = [] then [] else [("tool_outputs", pt.2)]) ++
    (if pq.2 = [] then [] else [("open_questions", pq.2)])
  (⟨context.goal, pc.1, pf.1, pd.1, pt.1, pq.1⟩, changes)

/-! ### Merge lemmas -/

theorem dedupe_go_eq (rest : List String) :
    ∀ seen result added, dedupe_go seen result added rest =
      (result ++ added_items seen rest, added ++ added_items seen rest) := by
  induction rest with
  | nil => intro seen result added; simp [dedupe_go, added_items]
  | cons item rest ih =>
    intro seen result added
    by_cases h : item ∈ seen
    · simp [dedupe_go, added_items, h, ih]
    · simp [dedupe_go, added_items, h, ih, List.append_assoc]

theorem dedupe_append_eq (existing new_items : List String) :
    dedupe_append existing new_items =
      (existing ++ added_items existing new_items, added_items existing new_items) := by
  simp [dedupe_append, dedupe_go_eq]

/-- Every candidate item ends up either in the pre-existing list or among
the added items. -/
theorem mem_existing_or_added (new_items : List String) :
    ∀ existing x, x ∈ new_items →
      x ∈ existing ∨ x ∈ added_items existing new_items := by
  induction new_items with
  | nil => intro existing x hx; cases hx
  | cons item rest ih =>
    intro existing x hx
    by_cases h : item ∈ existing
    · rcases List.mem_cons.mp hx with rfl | hx
      · exact Or.inl h
      · simpa [added_items, h] using ih existing x hx
    · rcases List.mem_cons.mp hx with rfl | hx
      · simp [added_items, h]
      · rcases ih (item :: existing) x hx with hmem | hadd
        · rcases List.mem_cons.mp hmem with rfl | hmem
          · simp [added_items, h]
          · exact Or.inl hmem
        · simp [added_items, h, hadd]

/-- If every candidate is already present, nothing is added. -/
theorem added_items_eq_nil (new_items : List String) :
    ∀ existing, (∀ x ∈ new_items, x ∈ existing) →
      added_items existing new_items = [] := by
  induction new_items with
  | nil => intro existing _; rfl
  | cons item rest ih =>
    intro existing h
    have hitem : item ∈ existing := h item (List.mem_cons_self item rest)
    simp only [added_items, if_pos hitem]
    exact ih existing fun x hx => h x (List.mem_cons_of_mem item hx)

/-- A second pass over the same candidates, with the additions of the
first pass already appended to the existing list, adds nothing. -/
theorem added_items_idem (existing new_items : List String) :
    added_items (existing ++ added_items existing new_items) new_items = [] := by
  apply added_items_eq_nil
  intro x hx
  rcases mem_existing_or_added new_items existing x hx with h | h
  · exact List.mem_append_left _ h
  · exact List.mem_append_right _ h

theorem merge_updates_fields (c : Context) (u : SuggestedContextUpdates) :
    (merge_updates c u).1 =
      ⟨c.goal,
       c.constraints ++ added_items c.constraints u.constraints,
       c.facts ++ added_items c.facts u.facts,
       c.decisions ++ added_items c.decisions u.decisions,
       c.tool_outputs ++ added_items c.tool_outputs u.tool_outputs,
       c.open_questions ++ added_items c.open_questions u.open_questions⟩ := by
  simp [merge_updates, dedupe_append_eq]

theorem merge_updates_changes (c : Context) (u : SuggestedContextUpdates) :
    (merge_updates c u).2 =
      (if added_items c.facts u.facts = [] then []
        else [("facts", added_items c.facts u.facts)]) ++
      (if added_items c.decisions u.decisions = [] then []
        else [("decisions", added_items c.decisions u.decisions)]) ++
      (if added_items c.constraints u.constraints = [] then []
        else [("constraints", added_items c.constraints u.constraints)]) ++
      (if added_items c.tool_outputs u.tool_outputs = [] then []
        else [("tool_outputs", added_items c.tool_outputs u.tool_outputs)]) ++
      (if added_items c.open_questions u.open_questions = [] then []
        else [("open_questions", added_items c.open_questions u.open_questions)]) := by
  simp [merge_updates, dedupe_append_eq]

theorem merge_changes_lookup_facts (c : Context) (u : SuggestedContextUpdates) :
    (merge_updates c u).2.lookup "facts" =
      if added_items c.facts u.facts = [] then none
      else some (added_items c.facts u.facts) := by
  rw [merge_updates_changes]
  by_cases h1 : added_items c.facts u.facts = [] <;>
    by_cases h2 : added_items c.decisions u.decisions = [] <;>
      by_cases h3 : added_items c.constraints u.constraints = [] <;>
        by_cases h4 : added_items c.tool_outputs u.tool_outputs = [] <;>
          by_cases h5 : added_items c.open_questions u.open_questions = [] <;>
            simp [h1, h2, h3, h4, h5, List.lookup]

theorem merge_changes_lookup_decisions (c : Context) (u : SuggestedContextUpdates) :
    (merge_updates c u).2.lookup "decisions" =
      if added_items c.decisions u.decisions = [] then none
      else some (added_items c.decisions u.decisions) := by
  rw [merge_updates_changes]
  by_cases h1 : added_items c.facts u.facts = [] <;>
    by_cases h2 : added_items c.decisions u.decisions = [] <;>
      by_cases h3 : added_items c.constraints u.constraints = [] <;>
        by_cases h4 : added_items c.tool_outputs u.tool_outputs = [] <;>
          by_cases h5 : added_items c.open_questions u.open_questions = [] <;>
            simp [h1, h2, h3, h4, h5, List.lookup]

theorem merge_changes_lookup_constraints (c : Context) (u : SuggestedContextUpdates) :
    (merge_updates c u).2.lookup "constraints" =
      if added_items c.constraints u.constraints = [] then none
      else some (added_items c.constraints u.constraints) := by
  rw [merge_updates_changes]
  by_cases h1 : added_items c.facts u.facts = [] <;>
    by_cases h2 : added_items c.decisions u.decisions = [] <;>
      by_cases h3 : added_items c.constraints u.constraints = [] <;>
        by_cases h4 : added_items c.tool_outputs u.tool_outputs = [] <;>
          by_cases h5 : added_items c.open_questions u.open_questions = [] <;>
            simp [h1, h2, h3, h4, h5, List.lookup]

theorem merge_changes_lookup_tool_outputs (c : Context) (u : SuggestedContextUpdates) :
    (merge_updates c u).2.lookup "tool_outputs" =
      if added_items c.tool_outputs u.tool_outputs = [] then none
      else some (added_items c.tool_outputs u.tool_outputs) := by
  rw [merge_updates_changes]
  by_cases h1 : added_items c.facts u.facts = [] <;>
    by_cases h2 : added_items c.decisions u.decisions = [] <;>
      by_cases h3 : added_items c.constraints u.constraints = [] <;>
        by_cases h4 : added_items c.tool_outputs u.tool_outputs = [] <;>
          by_cases h5 : added_items c.open_questions u.open_questions = [] <;>
            simp [h1, h2, h3, h4, h5, List.lookup]

theorem merge_changes_lookup_open_questions (c : Context) (u : SuggestedContextUpdates) :
    (merge_updates c u).2.lookup "open_questions" =
      if added_items c.open_questions u.open_questions = [] then none
      else some (added_items c.open_questions u.open_questions) := by
  rw [merge_updates_changes]
  by_cases h1 : added_items c.facts u.facts = [] <;>
    by_cases h2 : added_items c.decisions u.decisions = [] <;>
      by_cases h3 : added_items c.constraints u.constraints = [] <;>
        by_cases h4 : added_items c.tool_outputs u.tool_outputs = [] <;>
          by_cases h5 : added_items c.open_questions u.open_questions = [] <;>
            simp [h1, h2, h3, h4, h5, List.lookup]

/-- C1: merge_updates treats the five sequence fields independently; each
result field is the original field followed by exactly the candidate items
not already present (by string equality) and not already added earlier in
the same call, in their given order; the changes summary maps each field
name to exactly the appended items and contains a field only when something
was added; Scenario A evaluates as specified. -/
theorem C1_merge_updates_correct (c : Context) (u : SuggestedContextUpdates) :
    (merge_updates c u).1.facts = c.facts ++ added_items c.facts u.facts ∧
    (merge_updates c u).1.decisions = c.decisions ++ added_items c.decisions u.decisions ∧
    (merge_updates c u).1.constraints =
      c.constraints ++ added_items c.constraints u.constraints ∧
    (merge_updates c u).1.tool_outputs =
      c.tool_outputs ++ added_items c.tool_outputs u.tool_outputs ∧
    (merge_updates c u).1.open_questions =
      c.open_questions ++ added_items c.open_questions u.open_questions ∧
    ((merge_updates c u).2.lookup "facts" =
      if added_items c.facts u.facts = [] then none
      else some (added_items c.facts u.facts)) ∧
    ((merge_updates c u).2.lookup "decisions" =
      if added_items c.decisions u.decisions = [] then none
      else some (added_items c.decisions u.decisions)) ∧
    ((merge_updates c u).2.lookup "constraints" =
      if added_items c.constraints u.constraints = [] then none
      else some (added_items c.constraints u.constraints)) ∧
    ((merge_updates c u).2.lookup "tool_outputs" =
      if added_items c.tool_outputs u.tool_outputs = [] then none
      else some (added_items c.tool_outputs u.tool_outputs)) ∧
    ((merge_updates c u).2.lookup "open_questions" =
      if added_items c.open_questions u.open_questions = [] then none
      else some (added_items c.open_questions u.open_questions)) ∧
    merge_updates ⟨"", [], ["f1", "f2"], [], [], []⟩ ⟨["f2", "f3"], [], [], [], []⟩ =
      (⟨"", [], ["f1", "f2", "f3"], [], [], []⟩, [("facts", ["f3"])]) := by
  refine ⟨?_, ?_, ?_, ?_, ?_, ?_, ?_, ?_, ?_, ?_, ?_⟩
  · rw [merge_updates_fields]
  · rw [merge_updates_fields]
  · rw [merge_updates_fields]
  · rw [merge_updates_fields]
  · rw [merge_updates_fields]
  · exact merge_changes_lookup_facts c u
  · exact merge_changes_lookup_decisions c u
  · exact merge_changes_lookup_constraints c u
  · exact merge_changes_lookup_tool_outputs c u
  · exact merge_changes_lookup_open_questions c u
  · decide

/-- C2: merge is idempotent — applying the same updates to the context
produced by a first merge yields an empty changes summary. -/
theorem C2_merge_idempotent (c : Context) (u : SuggestedContextUpdates) :
    (merge_updates (merge_updates c u).1 u).2 = [] := by
  rw [merge_updates_changes, merge_updates_fields]
  simp [added_items_idem]

/-- C3: the goal field is copied unchanged by merge_updates; updates carry
no goal field, so the goal never changes under merge. -/
theorem C3_merge_goal_immutable (c : Context) (u : SuggestedContextUpdates) :
    (merge_updates c u).1.goal = c.goal := rfl

/-! ## Prompt renderer (`src/col/core/prompt_builder.py`)

`build_prompt` is `SYSTEM_PROMPT_TEMPLATE.format(...)`; the template is
split here at its six placeholders into the literal segments between them,
and the format call becomes the interleaved concatenation. The doubled
braces of the template render as literal braces in the JSON example of the
tail segment. -/

/-- Template text before the goal placeholder. -/
def tmpl_goal_hdr : String :=
  "You are an assistant working within a structured context system.\n\n## Current Context\n\n### Goal\n"

/-- Template text between the goal and constraints placeholders. -/
def tmpl_constraints_hdr : String :=
  "\n\n### Constraints\n"

/-- Template text between the constraints and facts placeholders. -/
def tmpl_facts_hdr : String :=
  "\n\n### Established Facts\n"

/-- Template text between the facts and decisions placeholders. -/
def tmpl_decisions_hdr : String :=
  "\n\n### Decisions Made\n"

/-- Template text between the decisions and tool_outputs placeholders. -/
def tmpl_tool_outputs_hdr : String :=
  "\n\n### Tool Outputs\n"

/-- Template text between the tool_outputs and open_questions placeholders. -/
def tmpl_open_questions_hdr : String :=
  "\n\n### Open Questions\n"

/-- Template text after the open_questions placeholder: the response-format
instructions, including the JSON example produced by the doubled braces. -/
def tmpl_tail : String :=
  "\n\n## Your Response Format\n\nYou MUST respond with valid JSON in this exact format:\n\n\x7b\n  \"answer\": \"Your response addressing the current goal/question\",\n  \"suggested_context_updates\": \x7b\n    \"facts\": [\"new fact 1\", \"new fact 2\"],\n    \"decisions\": [\"new decision 1\"],\n    \"constraints\": [],\n    \"tool_outputs\": [],\n    \"open_questions\": [\"new question if any\"]\n  \x7d\n\x7d\n\nRules:\n- Only suggest additions to context, never deletions\n- Only include non-empty arrays for fields you want to update\n- Your \"answer\" should directly address the goal or respond to the user\n- Suggested updates are SUGGESTIONS - the user will decide whether to apply them\n"

/-- Embeds `_format_list` (`prompt_builder.py` lines 64-68) at its only
used empty-message argument: an empty list renders as the placeholder,
otherwise items are bulleted and joined with newlines. -/
def format_list (items : List String) : String :=
  if items = [] then "(none)"
  else String.intercalate "\n" (items.map fun item => "- " ++ item)

/-- Embeds the goal argument of the format call (`prompt_builder.py` line
90): Python `context.goal or "(not set)"` — the empty string is falsy. -/
def goal_text (goal : String) : String :=
  if goal = "" then "(not set)" else goal

/-- Embeds `build_prompt` (`prompt_builder.py` lines 71-96): the template
formatted with the six field renderings in the fixed order goal,
constraints, facts, decisions, tool_outputs, open_questions. -/
def build_prompt (context : Context) : String :=
  tmpl_goal_hdr ++ goal_text context.goal ++
  tmpl_constraints_hdr ++ format_list context.constraints ++
  tmpl_facts_hdr ++ format_list context.facts ++
  tmpl_decisions_hdr ++ format_list context.decisions ++
  tmpl_tool_outputs_hdr ++ format_list context.tool_outputs ++
  tmpl_open_questions_hdr ++ format_list context.open_questions ++
  tmpl_tail

/-- C7: the prompt renderer is deterministic — a pure function of the
context fields alone, so any two field-wise equal Context values render to
identical strings; no time, randomness or run metadata is consulted. -/
theorem C7_build_prompt_deterministic (c1 c2 : Context)
    (hgoal : c1.goal = c2.goal)
    (hconstraints : c1.constraints = c2.constraints)
    (hfacts : c1.facts = c2.facts)
    (hdecisions : c1.decisions = c2.decisions)
    (htool_outputs : c1.tool_outputs = c2.tool_outputs)
    (hopen_questions : c1.open_questions = c2.open_questions) :
    build_prompt c1 = build_prompt c2 := by
  simp [build_prompt, hgoal, hconstraints, hfacts, hdecisions, htool_outputs,
    hopen_questions]

/-- Witness for C7 at a concrete pair of field-wise equal contexts. -/
theorem C7_build_prompt_deterministic_witness :
    build_prompt ⟨"g", ["a"], ["f"], [], [], []⟩ =
      build_prompt ⟨"g", ["a"], ["f"], [], [], []⟩ :=
  C7_build_prompt_deterministic ⟨"g", ["a"], ["f"], [], [], []⟩
    ⟨"g", ["a"], ["f"], [], [], []⟩ rfl rfl rfl rfl rfl rfl

/-- C8: build_prompt renders the fields in the fixed order goal,
constraints, facts, decisions, tool_outputs, open_questions; each sequence
renders as a bulleted list in its existing order, an empty sequence as
"(none)" and an empty goal as "(not set)"; rendering the empty context
yields a prompt containing both placeholders. -/
theorem C8_prompt_field_order_and_placeholders (c : Context) :
    (build_prompt c =
      tmpl_goal_hdr ++ goal_text c.goal ++
      tmpl_constraints_hdr ++ format_list c.constraints ++
      tmpl_facts_hdr ++ format_list c.facts ++
      tmpl_decisions_hdr ++ format_list c.decisions ++
      tmpl_tool_outputs_hdr ++ format_list c.tool_outputs ++
      tmpl_open_questions_hdr ++ format_list c.open_questions ++
      tmpl_tail) ∧
    goal_text "" = "(not set)" ∧
    format_list [] = "(none)" ∧
    format_list ["item one", "item two"] = "- item one\n- item two" ∧
    (∃ p q, build_prompt ⟨"", [], [], [], [], []⟩ = p ++ "(not set)" ++ q) ∧
    (∃ p q, build_prompt ⟨"", [], [], [], [], []⟩ = p ++ "(none)" ++ q) := by
  refine ⟨rfl, rfl, rfl, rfl, ?_, ?_⟩
  · exact ⟨tmpl_goal_hdr,
      tmpl_constraints_hdr ++ "(none)" ++ tmpl_facts_hdr ++ "(none)" ++
        tmpl_decisions_hdr ++ "(none)" ++ tmpl_tool_outputs_hdr ++ "(none)" ++
        tmpl_open_questions_hdr ++ "(none)" ++ tmpl_tail, by rfl⟩
  · exact ⟨tmpl_goal_hdr ++ "(not set)" ++ tmpl_constraints_hdr,
      tmpl_facts_hdr ++ "(none)" ++ tmpl_decisions_hdr ++ "(none)" ++
        tmpl_tool_outputs_hdr ++ "(none)" ++ tmpl_open_questions_hdr ++ "(none)" ++
        tmpl_tail, by rfl⟩

/-! ## JSON values and parsing

`run_completion` parses raw model output with `json.loads` and validates
the result with pydantic. JSON values are modelled by `Json`; `json_loads`
models `json.loads` on the fragment the claims exercise (objects, arrays,
strings with the common escapes, integers, booleans, null, whitespace; a
floating-point literal is outside the model). Parsing consumes the whole
input, as `json.loads` does. -/

/-- A parsed JSON value. Objects keep their members in source order;
duplicate keys are resolved last-wins at lookup time, as a Python dict
built by insertion would. -/
inductive Json where
  | null : Json
  | bool (b : Bool) : Json
  | num (n : Int) : Json
  | str (s : String) : Json
  | arr (elems : List Json) : Json
  | obj (fields : List (String × Json)) : Json

/-- Drop leading JSON whitespace. -/
def skipWs : List Char → List Char
  | c :: rest =>
    if c = ' ' ∨ c = '\n' ∨ c = '\t' ∨ c = '\r' then skipWs rest else c :: rest
  | [] => []

/-- Parse the body of a JSON string after its opening quote, handling the
single-character escapes; returns the decoded characters and the input
after the closing quote. -/
def parseStringChars : List Char → Option (List Char × List Char)
  | [] => none
  | '"' :: rest => some ([], rest)
  | '\\' :: e :: rest =>
    match
      (match e with
       | '"' => some '"'
       | '\\' => some '\\'
       | '/' => some '/'
       | 'n' => some '\n'
       | 't' => some '\t'
       | 'r' => some '\r'
       | 'b' => some (Char.ofNat 8)
       | 'f' => some (Char.ofNat 12)
       | _ => none) with
    | none => none
    | some c =>
      match parseStringChars rest with
      | none => none
      | some (cs, rem) => some (c :: cs, rem)
  | c :: rest =>
    match parseStringChars rest with
    | none => none
    | some (cs, rem) => some (c :: cs, rem)

/-- Accumulate a run of decimal digits. -/
def parseDigits (acc : Nat) : List Char → Nat × List Char
  | c :: rest =>
    if c.isDigit then parseDigits (acc * 10 + (c.toNat - 48)) rest
    else (acc, c :: rest)
  | [] => (acc, [])

/-- Parse an integer literal, with optional leading minus sign. -/
def parseNumber : List Char → Option (Json × List Char)
  | '-' :: c :: rest =>
    if c.isDigit then
      let p := parseDigits 0 (c :: rest)
      some (.num (-(p.1 : Int)), p.2)
    else none
  | c :: rest =>
    if c.isDigit then
      let p := parseDigits 0 (c :: rest)
      some (.num (p.1 : Int), p.2)
    else none
  | [] => none

mutual

/-- Parse one JSON value; fuel bounds the recursion depth and shrinks on
every step, so any input is handled with fuel beyond its length. -/
def parseValue : Nat → List Char → Option (Json × List Char)
  | 0, _ => none
  | fuel + 1, input =>
    match skipWs input with
    | 'n' :: 'u' :: 'l' :: 'l' :: rest => some (.null, rest)
    | 't' :: 'r' :: 'u' :: 'e' :: rest => some (.bool true, rest)
    | 'f' :: 'a' :: 'l' :: 's' :: 'e' :: rest => some (.bool false, rest)
    | '"' :: rest =>
      match parseStringChars rest with
      | some (cs, rem) => some (.str (String.mk cs), rem)
      | none => none
    | '[' :: rest => parseArray fuel rest
    | '\x7b' :: rest => parseObject fuel rest
    | other => parseNumber other

/-- Parse the inside of an array after the opening bracket. -/
def parseArray : Nat → List Char → Option (Json × List Char)
  | 0, _ => none
  | fuel + 1, input =>
    match skipWs input with
    | ']' :: rest => some (.arr [], rest)
    | other => parseElems fuel [] other

/-- Parse the comma-separated elements of a nonempty array. -/
def parseElems : Nat → List Json → List Char → Option (Json × List Char)
  | 0, _, _ => none
  | fuel + 1, acc, input =>
    match parseValue fuel input with
    | none => none
    | some (j, rest) =>
      match skipWs rest with
      | ',' :: rest2 => parseElems fuel (acc ++ [j]) rest2
      | ']' :: rest2 => some (.arr (acc ++ [j]), rest2)
      | _ => none

/-- Parse the inside of an object after the opening brace. -/
def parseObject : Nat → List Char → Option (Json × List Char)
  | 0, _ => none
  | fuel + 1, input =>
    match skipWs input with
    | '\x7d' :: rest => some (.obj [], rest)
    | other => parseMembers fuel [] other

/-- Parse the comma-separated members of a nonempty object. -/
def parseMembers : Nat → List (String × Json) → List Char → Option (Json × List Char)
  | 0, _, _ => none
  | fuel + 1, acc, input =>
    match skipWs input with
    | '"' :: rest =>
      match parseStringChars rest with
      | none => none
      | some (key, rest2) =>
        match skipWs rest2 with
        | ':' :: rest3 =>
          match parseValue fuel rest3 with
          | none => none
          | some (v, rest4) =>
            match skipWs rest4 with
            | ',' :: rest5 => parseMembers fuel (acc ++ [(String.mk key, v)]) rest5
            | '\x7d' :: rest5 => some (.obj (acc ++ [(String.mk key, v)]), rest5)
            | _ => none
        | _ => none
    | _ => none

end

/-- Models `json.loads`: parse one value and require the remainder of the
input to be whitespace, failing (the JSONDecodeError case) otherwise. -/
def json_loads (s : String) : Option Json :=
  match parseValue (s.length + 1) s.toList with
  | some (j, rest) => if skipWs rest = [] then some j else none
  | none => none

/-! ## Response validation (`src/col/schema.py` + pydantic v2 semantics)

`ModelResponse.model_validate` under the default pydantic v2 model config:
required fields must be present, absent optional fields take their
defaults, wrongly-typed fields are rejected without coercion (a JSON
string is never turned into a list, numbers are never turned into
strings), and unknown extra keys are silently ignored. -/

/-- Look a key up in parsed object members, last occurrence winning, as in
the dict `json.loads` builds. -/
def jget (fields : List (String × Json)) (key : String) : Option Json :=
  fields.foldl (fun acc kv => if kv.1 = key then some kv.2 else acc) none

/-- Validate a JSON array body as a list of strings; any non-string item
rejects the whole list. -/
def asStrList : List Json → Option (List String)
  | [] => some []
  | .str s :: rest =>
    match asStrList rest with
    | some l => some (s :: l)
    | none => none
  | _ => none

/-- Validate one sequence-of-strings field of SuggestedContextUpdates: an
absent field defaults to the empty list, a present field must be an array
of strings. -/
def validateStrListField (fields : List (String × Json)) (key : String) :
    Option (List String) :=
  match jget fields key with
  | none => some []
  | some (.arr items) => asStrList items
  | some _ => none

/-- Models `SuggestedContextUpdates.model_validate`: the payload must be an
object; each of the five fields, when present, must be an array of
strings; unknown keys are ignored. -/
def validate_updates : Json → Option SuggestedContextUpdates
  | .obj fields =>
    match validateStrListField fields "facts", validateStrListField fields "decisions",
          validateStrListField fields "constraints",
          validateStrListField fields "tool_outputs",
          validateStrListField fields "open_questions" with
    | some f, some d, some c, some t, some q => some ⟨f, d, c, t, q⟩
    | _, _, _, _, _ => none
  | _ => none

/-- Models `ModelResponse.model_validate`: the payload must be an object
with a string `answer`; `suggested_context_updates`, when present, must
validate as SuggestedContextUpdates and otherwise defaults to all-empty;
unknown keys are ignored. -/
def validate_model_response : Json → Option ModelResponse
  | .obj fields =>
    match jget fields "answer" with
    | some (.str ans) =>
      match jget fields "suggested_context_updates" with
      | none => some ⟨ans, emptyUpdates⟩
      | some v =>
        match validate_updates v with
        | some u => some ⟨ans, u⟩
        | none => none
    | _ => none
  | _ => none

/-- The two failure kinds of the orchestrator validation step
(`orchestrator.py` lines 96-99): `json.JSONDecodeError` from `json.loads`,
or a pydantic ValidationError from `ModelResponse.model_validate`. -/
inductive VErr where
  | parse : VErr
  | schema : VErr
deriving DecidableEq, Repr

/-- The validation pipeline of `run_completion` (`orchestrator.py` lines
98-99): parse the raw text, then validate the parsed payload; each stage
failure is the corresponding error kind and no ModelResponse is produced. -/
def validate_response (raw : String) : Except VErr ModelResponse :=
  match json_loads raw with
  | none => .error .parse
  | some j =>
    match validate_model_response j with
    | none => .error .schema
    | some r => .ok r

/-- Whatever `validate_model_response` accepts has the required shape: an
object whose `answer` member is exactly the returned answer string, and
whose `suggested_context_updates` member, when present, itself validated to
exactly the returned updates — nothing was coerced or partially accepted. -/
theorem validate_model_response_sound (j : Json) (r : ModelResponse)
    (h : validate_model_response j = some r) :
    ∃ fields, j = Json.obj fields ∧
      jget fields "answer" = some (Json.str r.answer) ∧
      ((jget fields "suggested_context_updates" = none ∧
          r.suggested_context_updates = emptyUpdates) ∨
        (∃ v, jget fields "suggested_context_updates" = some v ∧
          validate_updates v = some r.suggested_context_updates)) := by
  cases j with
  | null => simp [validate_model_response] at h
  | bool b => simp [validate_model_response] at h
  | num n => simp [validate_model_response] at h
  | str s => simp [validate_model_response] at h
  | arr l => simp [validate_model_response] at h
  | obj fields =>
    refine ⟨fields, rfl, ?_⟩
    simp only [validate_model_response] at h
    split at h
    · rename_i ans heq
      split at h
      · rename_i heq2
        simp only [Option.some.injEq] at h
        subst h
        exact ⟨by rw [heq], Or.inl ⟨heq2, rfl⟩⟩
      · rename_i v heq2
        split at h
        · rename_i u heq3
          simp only [Option.some.injEq] at h
          subst h
          exact ⟨by rw [heq], Or.inr ⟨v, heq2, heq3⟩⟩
        · exact absurd h (by simp)
    · exact absurd h (by simp)

/-- C4 counterexample: a payload with an unknown extra top-level field is
accepted — pydantic under the default model config ignores extra keys — so
a ModelResponse value IS produced where the claim says validation must
fail. -/
theorem C4_counterexample_extra_field_accepted :
    validate_model_response
        (Json.obj [("answer", Json.str "ok"), ("unexpected", Json.num 1)]) =
      some ⟨"ok", ⟨[], [], [], [], []⟩⟩ := rfl

/-- C4 (amended): validation of typed deviations is all-or-nothing — a
value accepted by `validate_model_response` is an object whose `answer`
member is exactly the returned string and whose updates member, when
present, decomposed exactly into the five string-sequence fields; a
wrongly-typed updates sub-field (a string where a mapping is expected)
rejects the whole payload with no ModelResponse produced; but unknown
extra fields are ignored rather than rejected. -/
theorem C4_validation_all_or_nothing (j : Json) (r : ModelResponse)
    (h : validate_model_response j = some r) :
    (∃ fields, j = Json.obj fields ∧
      jget fields "answer" = some (Json.str r.answer) ∧
      ((jget fields "suggested_context_updates" = none ∧
          r.suggested_context_updates = emptyUpdates) ∨
        (∃ v, jget fields "suggested_context_updates" = some v ∧
          validate_updates v = some r.suggested_context_updates))) ∧
    validate_model_response
        (Json.obj [("answer", Json.str "ok"),
                   ("suggested_context_updates", Json.str "oops")]) = none ∧
    validate_model_response
        (Json.obj [("answer", Json.str "ok"),
                   ("suggested_context_updates",
                    Json.obj [("facts", Json.str "not a list")])]) = none :=
  ⟨validate_model_response_sound j r h, rfl, rfl⟩

/-- Witness for C4 (amended) at the concrete minimal accepted payload. -/
theorem C4_validation_all_or_nothing_witness :
    (∃ fields, Json.obj [("answer", Json.str "hi")] = Json.obj fields ∧
      jget fields "answer" = some (Json.str "hi") ∧
      ((jget fields "suggested_context_updates" = none ∧
          emptyUpdates = emptyUpdates) ∨
        (∃ v, jget fields "suggested_context_updates" = some v ∧
          validate_updates v = some emptyUpdates))) ∧
    validate_model_response
        (Json.obj [("answer", Json.str "ok"),
                   ("suggested_context_updates", Json.str "oops")]) = none ∧
    validate_model_response
        (Json.obj [("answer", Json.str "ok"),
                   ("suggested_context_updates",
                    Json.obj [("facts", Json.str "not a list")])]) = none :=
  C4_validation_all_or_nothing (Json.obj [("answer", Json.str "hi")])
    ⟨"hi", emptyUpdates⟩ rfl

/-- C9: the validator is total over raw text and behaves as Scenario C
requires — non-JSON text fails with a parse-kind error, a JSON object
missing `answer` fails with a schema-kind error, and a minimal object with
only `answer` succeeds with all five update sequences defaulted empty. -/
theorem C9_validator_scenarios :
    validate_response "not json" = .error .parse ∧
    validate_response "\x7b\"suggested_context_updates\": \x7b\x7d\x7d" =
      .error .schema ∧
    validate_response "\x7b\"answer\": \"ok\"\x7d" =
      .ok ⟨"ok", ⟨[], [], [], [], []⟩⟩ :=
  ⟨rfl, rfl, rfl⟩

/-! ## Run artifact naming (`src/col/core/orchestrator.py` lines 143-164)

`_write_run_artifact` names the artifact file
`timestamp.strftime("%Y%m%d_%H%M%S_%f")[:-3] + ".json"` inside `.col/runs`.
The timestamp is modelled by its broken-down UTC fields; `strftime` zero-pads
each field to its fixed width, and the `[:-3]` slice drops the last three of
the six microsecond digits, leaving millisecond precision. -/

/-- Broken-down UTC timestamp, the fields `strftime` reads. -/
structure Timestamp where
  year : Nat
  month : Nat
  day : Nat
  hour : Nat
  minute : Nat
  second : Nat
  microsecond : Nat
deriving DecidableEq, Repr

/-- Two decimal digits, zero-padded. -/
def pad2 (n : Nat) : List Char :=
  [Nat.digitChar (n / 10), Nat.digitChar (n % 10)]

/-- Four decimal digits, zero-padded. -/
def pad4 (n : Nat) : List Char :=
  [Nat.digitChar (n / 1000), Nat.digitChar (n / 100 % 10),
   Nat.digitChar (n / 10 % 10), Nat.digitChar (n % 10)]

/-- Six decimal digits, zero-padded. -/
def pad6 (n : Nat) : List Char :=
  [Nat.digitChar (n / 100000), Nat.digitChar (n / 10000 % 10),
   Nat.digitChar (n / 1000 % 10), Nat.digitChar (n / 100 % 10),
   Nat.digitChar (n / 10 % 10), Nat.digitChar (n % 10)]

/-- The characters of `strftime("%Y%m%d_%H%M%S_%f")`. -/
def strftime_run_fmt (t : Timestamp) : List Char :=
  pad4 t.year ++ pad2 t.month ++ pad2 t.day ++ ['_'] ++
  pad2 t.hour ++ pad2 t.minute ++ pad2 t.second ++ ['_'] ++
  pad6 t.microsecond

/-- The `[:-3]` slice of the formatted timestamp. -/
def filename_stem (t : Timestamp) : List Char :=
  (strftime_run_fmt t).take ((strftime_run_fmt t).length - 3)

/-- Embeds the artifact filename computed at `orchestrator.py` line 158. -/
def artifact_filename (t : Timestamp) : String :=
  String.mk (filename_stem t ++ ".json".toList)

/-- Embeds the artifact path `.col/runs/<filename>` (lines 154-159). -/
def artifact_path (t : Timestamp) : String :=
  String.mk (".col/runs/".toList ++ (filename_stem t ++ ".json".toList))

/-- The timestamp truncated to the millisecond precision the filename
keeps. -/
def ms_key (t : Timestamp) : Nat × Nat × Nat × Nat × Nat × Nat × Nat :=
  (t.year, t.month, t.day, t.hour, t.minute, t.second, t.microsecond / 1000)

/-- Field ranges of a real broken-down timestamp (generously: each padded
field fits its width). -/
def ts_in_range (t : Timestamp) : Prop :=
  t.year < 10000 ∧ t.month < 100 ∧ t.day < 100 ∧ t.hour < 100 ∧
  t.minute < 100 ∧ t.second < 100 ∧ t.microsecond < 1000000

instance (t : Timestamp) : Decidable (ts_in_range t) := by
  unfold ts_in_range; infer_instance

theorem filename_stem_eq (t : Timestamp) :
    filename_stem t =
      [Nat.digitChar (t.year / 1000), Nat.digitChar (t.year / 100 % 10),
       Nat.digitChar (t.year / 10 % 10), Nat.digitChar (t.year % 10),
       Nat.digitChar (t.month / 10), Nat.digitChar (t.month % 10),
       Nat.digitChar (t.day / 10), Nat.digitChar (t.day % 10), '_',
       Nat.digitChar (t.hour / 10), Nat.digitChar (t.hour % 10),
       Nat.digitChar (t.minute / 10), Nat.digitChar (t.minute % 10),
       Nat.digitChar (t.second / 10), Nat.digitChar (t.second % 10), '_',
       Nat.digitChar (t.microsecond / 100000),
       Nat.digitChar (t.microsecond / 10000 % 10),
       Nat.digitChar (t.microsecond / 1000 % 10)] := rfl

/-- A digit character determines its digit. -/
theorem digitChar_inj_of_lt (a b : Nat) (ha : a < 10) (hb : b < 10)
    (h : Nat.digitChar a = Nat.digitChar b) : a = b := by
  have key : ∀ x y : Fin 10, Nat.digitChar x.val = Nat.digitChar y.val → x = y := by
    decide
  exact congrArg Fin.val (key ⟨a, ha⟩ ⟨b, hb⟩ h)

/-- Equal artifact filenames force equal millisecond keys: the filename
determines the timestamp down to the millisecond. -/
theorem artifact_filename_determines_ms (t1 t2 : Timestamp)
    (h1 : ts_in_range t1) (h2 : ts_in_range t2)
    (heq : artifact_filename t1 = artifact_filename t2) :
    ms_key t1 = ms_key t2 := by
  obtain ⟨hy1, hmo1, hd1, hh1, hmi1, hs1, hu1⟩ := h1
  obtain ⟨hy2, hmo2, hd2, hh2, hmi2, hs2, hu2⟩ := h2
  have hlist : filename_stem t1 ++ ".json".toList =
      filename_stem t2 ++ ".json".toList := by
    injection heq
  have hstem : filename_stem t1 = filename_stem t2 :=
    List.append_cancel_right hlist
  rw [filename_stem_eq, filename_stem_eq] at hstem
  simp only [List.cons.injEq, and_true] at hstem
  obtain ⟨e1, e2, e3, e4, e5, e6, e7, e8, _, e9, e10, e11, e12, e13, e14, _,
    e15, e16, e17⟩ := hstem
  have hy : t1.year = t2.year := by
    have d1 := digitChar_inj_of_lt _ _ (by omega) (by omega) e1
    have d2 := digitChar_inj_of_lt _ _ (by omega) (by omega) e2
    have d3 := digitChar_inj_of_lt _ _ (by omega) (by omega) e3
    have d4 := digitChar_inj_of_lt _ _ (by omega) (by omega) e4
    omega
  have hmo : t1.month = t2.month := by
    have d1 := digitChar_inj_of_lt _ _ (by omega) (by omega) e5
    have d2 := digitChar_inj_of_lt _ _ (by omega) (by omega) e6
    omega
  have hd : t1.day = t2.day := by
    have d1 := digitChar_inj_of_lt _ _ (by omega) (by omega) e7
    have d2 := digitChar_inj_of_lt _ _ (by omega) (by omega) e8
    omega
  have hh : t1.hour = t2.hour := by
    have d1 := digitChar_inj_of_lt _ _ (by omega) (by omega) e9
    have d2 := digitChar_inj_of_lt _ _ (by omega) (by omega) e10
    omega
  have hmi : t1.minute = t2.minute := by
    have d1 := digitChar_inj_of_lt _ _ (by omega) (by omega) e11
    have d2 := digitChar_inj_of_lt _ _ (by omega) (by omega) e12
    omega
  have hs : t1.second = t2.second := by
    have d1 := digitChar_inj_of_lt _ _ (by omega) (by omega) e13
    have d2 := digitChar_inj_of_lt _ _ (by omega) (by omega) e14
    omega
  have hu : t1.microsecond / 1000 = t2.microsecond / 1000 := by
    have d1 := digitChar_inj_of_lt _ _ (by omega) (by omega) e15
    have d2 := digitChar_inj_of_lt _ _ (by omega) (by omega) e16
    have d3 := digitChar_inj_of_lt _ _ (by omega) (by omega) e17
    omega
  simp [ms_key, hy, hmo, hd, hh, hmi, hs, hu]

/-- Distinct millisecond keys give distinct artifact paths. -/
theorem artifact_path_ne (t1 t2 : Timestamp)
    (h1 : ts_in_range t1) (h2 : ts_in_range t2)
    (hne : ms_key t1 ≠ ms_key t2) :
    artifact_path t1 ≠ artifact_path t2 := by
  intro h
  apply hne
  apply artifact_filename_determines_ms t1 t2 h1 h2
  unfold artifact_path at h
  have hd : ".col/runs/".toList ++ (filename_stem t1 ++ ".json".toList) =
      ".col/runs/".toList ++ (filename_stem t2 ++ ".json".toList) := by
    injection h
  have := List.append_cancel_left hd
  unfold artifact_filename
  rw [this]

/-! ## Run orchestration (`src/col/core/orchestrator.py` lines 21-164)

`run_completion` is modelled as a function of the provider call outcome
(the raw text and metadata the collaborator returned) and the wall-clock
timestamp taken at line 76, producing the ordered trace of its observable
effects — the validation attempt and the file writes, in source order —
together with its return value or raised `InvalidResponseError`. The SHA256
prompt hash (line 63, library code) is a function parameter; the
floating-point latency of the artifact is outside the model and no claim
reads it. -/

/-- The provider metadata dict as the orchestrator reads it: `provider`,
`model` and `usage` via `.get`, plus the `prompt_hash` entry the
orchestrator itself inserts before returning (line 117). -/
structure Metadata where
  provider : Option String
  model : Option String
  usage : Option (List (String × Nat))
  prompt_hash : Option String
deriving DecidableEq, Repr

/-- The `raw_data` record written to `output_path` (lines 91-94, 102-103,
123-124): the raw response and metadata always; `parsed` and `valid` added
on success; `valid := false` and the error added on failure. -/
structure RawRecord where
  raw_response : String
  metadata : Metadata
  parsed : Option ModelResponse
  valid : Option Bool
  error : Option VErr
deriving DecidableEq, Repr

/-- The run artifact dict (lines 77-88) as later amended (106-107 or 127);
the rounded float latency field is omitted from the model. -/
structure Artifact where
  timestamp : Timestamp
  provider : Option String
  model : Option String
  prompt_hash : String
  token_counts : Option (List (String × Nat))
  raw_output : String
  parsed_response : Option ModelResponse
  valid : Bool
  error : Option VErr
deriving DecidableEq, Repr

/-- Contents written to a file by the orchestrator. -/
inductive FileContent where
  | response (r : RawRecord) : FileContent
  | artifact (a : Artifact) : FileContent
deriving DecidableEq, Repr

/-- One observable step of `run_completion`, in source order. -/
inductive Event where
  | validate_attempt (raw : String) : Event
  | write_file (path : String) (content : FileContent) : Event
deriving DecidableEq, Repr

/-- Embeds `InvalidResponseError` (lines 21-27): carries the validation
error together with the raw output text and the output path. -/
structure InvalidResponseErr where
  err : VErr
  raw_output : String
  output_path : String
deriving DecidableEq, Repr

/-- Embeds `run_completion` (lines 30-140) given the provider call result
`(raw_response, metadata)` and the timestamp `ts` of line 76: builds the
prompt and its hash, then attempts parse-and-validate (lines 98-99), then
writes the response record to `output_path` and the artifact to
`.col/runs/<timestamp>.json` — in that order on both the success and the
failure path — and finally returns the response or raises
`InvalidResponseError`. -/
def run_completion (context : Context) (raw_response : String) (metadata : Metadata)
    (ts : Timestamp) (output_path : String) (hashFn : String → String) :
    List Event × Except InvalidResponseErr (ModelResponse × Metadata) :=
  let system_prompt := build_prompt context
  let prompt_hash := hashFn system_prompt
  let artifact0 : Artifact :=
    { timestamp := ts, provider := metadata.provider, model := metadata.model,
      prompt_hash := prompt_hash, token_counts := metadata.usage,
      raw_output := raw_response, parsed_response := none, valid := false,
      error := none }
  let raw0 : RawRecord :=
    { raw_response := raw_response, metadata := metadata, parsed := none,
      valid := none, error := none }
  match validate_response raw_response with
  | .ok mr =>
    ([.validate_attempt raw_response,
      .write_file output_path
        (.response { raw0 with parsed := some mr, valid := some true }),
      .write_file (artifact_path ts)
        (.artifact { artifact0 with parsed_response := some mr, valid := true })],
     .ok (mr, { metadata with prompt_hash := some prompt_hash }))
  | .error e =>
    ([.validate_attempt raw_response,
      .write_file output_path
        (.response { raw0 with valid := some false, error := some e }),
      .write_file (artifact_path ts)
        (.artifact { artifact0 with error := some e })],
     .error { err := e, raw_output := raw_response, output_path := output_path })

/-- True of validation-attempt events. -/
def isValidateEvent : Event → Bool
  | .validate_attempt _ => true
  | .write_file _ _ => false

/-- True of write events targeting `path`. -/
def isWriteTo (path : String) : Event → Bool
  | .write_file p _ => p = path
  | .validate_attempt _ => false

/-- Whether some write to `path` occurs strictly before the first
validation attempt of the trace. -/
def writes_path_before_validate (tr : List Event) (path : String) : Bool :=
  (tr.takeWhile fun e => !isValidateEvent e).any (isWriteTo path)

/-- The paths of the artifact writes of a trace. -/
def artifact_write_paths (tr : List Event) : List String :=
  tr.filterMap fun e =>
    match e with
    | .write_file p (.artifact _) => some p
    | _ => none

/-- The trace of any run is the validation attempt, then the response-file
write, then the artifact write. -/
theorem run_completion_trace_shape (c : Context) (raw : String) (md : Metadata)
    (ts : Timestamp) (out : String) (hashFn : String → String) :
    ∃ r a, (run_completion c raw md ts out hashFn).1 =
      [.validate_attempt raw,
       .write_file out (.response r),
       .write_file (artifact_path ts) (.artifact a)] ∧
      r.raw_response = raw := by
  unfold run_completion
  cases validate_response raw with
  | ok mr => exact ⟨_, _, rfl, rfl⟩
  | error e => exact ⟨_, _, rfl, rfl⟩

/-- C5 counterexample: at a concrete failing run, the first trace event is
the validation attempt and no write to the output path precedes it — the
raw response is persisted after validation is attempted, not before as the
claim states (the code validates at lines 98-99 and only then writes the
outcome-bearing record at line 109 or 129). -/
theorem C5_counterexample_validation_precedes_persist :
    writes_path_before_validate
        (run_completion ⟨"", [], [], [], [], []⟩ "not json"
          ⟨none, none, none, none⟩ ⟨2024, 1, 2, 3, 4, 5, 6000⟩ "out.json"
          (fun _ => "h")).1 "out.json" = false ∧
    (run_completion ⟨"", [], [], [], [], []⟩ "not json"
        ⟨none, none, none, none⟩ ⟨2024, 1, 2, 3, 4, 5, 6000⟩ "out.json"
        (fun _ => "h")).1.head? = some (Event.validate_attempt "not json") :=
  ⟨rfl, rfl⟩

/-- C5 (amended): run_completion persists the raw response and metadata to
the output path unconditionally — on the success path and on the failure
path alike, so a validation failure never loses the raw output — though
after, not before, validation is attempted; on validation failure it writes
the record marked invalid with the error and fails with an
InvalidResponseError carrying the raw text and the output path; the single
validation attempt per run is never retried. -/
theorem C5_raw_output_always_persisted (c : Context) (raw : String)
    (md : Metadata) (ts : Timestamp) (out : String) (hashFn : String → String) :
    (∃ rec : RawRecord,
      Event.write_file out (FileContent.response rec) ∈
        (run_completion c raw md ts out hashFn).1 ∧
      rec.raw_response = raw ∧ rec.metadata = md) ∧
    (run_completion c raw md ts out hashFn).1.filter isValidateEvent =
      [Event.validate_attempt raw] ∧
    (∀ e : VErr, validate_response raw = .error e →
      (run_completion c raw md ts out hashFn).2 =
        .error ⟨e, raw, out⟩ ∧
      ∃ rec : RawRecord,
        Event.write_file out (FileContent.response rec) ∈
          (run_completion c raw md ts out hashFn).1 ∧
        rec.raw_response = raw ∧ rec.valid = some false ∧ rec.error = some e) := by
  cases hv : validate_response raw with
  | ok mr =>
    refine ⟨⟨⟨raw, md, some mr, some true, none⟩, ?_, rfl, rfl⟩, ?_, ?_⟩
    · simp [run_completion, hv]
    · simp [run_completion, hv, List.filter, isValidateEvent]
    · intro e he; simp at he
  | error e0 =>
    refine ⟨⟨⟨raw, md, none, some false, some e0⟩, ?_, rfl, rfl⟩, ?_, ?_⟩
    · simp [run_completion, hv]
    · simp [run_completion, hv, List.filter, isValidateEvent]
    · intro e he
      injection he with h
      subst h
      refine ⟨by simp [run_completion, hv], ⟨raw, md, none, some false, some e0⟩,
        ?_, rfl, rfl, rfl⟩
      simp [run_completion, hv]

/-- Witness for C5 (amended) at a concrete failing run. -/
theorem C5_raw_output_always_persisted_witness :
    (run_completion ⟨"", [], [], [], [], []⟩ "not json"
        ⟨none, none, none, none⟩ ⟨2024, 1, 2, 3, 4, 5, 6000⟩ "out.json"
        (fun _ => "h")).2 =
      .error ⟨.parse, "not json", "out.json"⟩ :=
  ((C5_raw_output_always_persisted ⟨"", [], [], [], [], []⟩ "not json"
      ⟨none, none, none, none⟩ ⟨2024, 1, 2, 3, 4, 5, 6000⟩ "out.json"
      (fun _ => "h")).2.2 .parse rfl).1

/-- C6: each invocation writes exactly one artifact, at the path derived
from its timestamp; two runs whose timestamps differ at the millisecond
precision the filename keeps write artifacts at distinct paths, so neither
overwrites the other; and no run writes any path other than its output
path and its artifact path — in particular a distinct context file is
never touched. -/
theorem C6_artifact_writer_append_only (t1 t2 : Timestamp)
    (h1 : ts_in_range t1) (h2 : ts_in_range t2)
    (hne : ms_key t1 ≠ ms_key t2)
    (c : Context) (raw1 raw2 : String) (md1 md2 : Metadata) (out1 out2 : String)
    (hashFn : String → String) (ctx_path : String)
    (hc1 : ctx_path ≠ out1) (hc2 : ctx_path ≠ out2)
    (ha1 : ctx_path ≠ artifact_path t1) (ha2 : ctx_path ≠ artifact_path t2) :
    artifact_path t1 ≠ artifact_path t2 ∧
    artifact_write_paths (run_completion c raw1 md1 t1 out1 hashFn).1 =
      [artifact_path t1] ∧
    artifact_write_paths (run_completion c raw2 md2 t2 out2 hashFn).1 =
      [artifact_path t2] ∧
    (∀ e ∈ (run_completion c raw1 md1 t1 out1 hashFn).1,
      isWriteTo ctx_path e = false) ∧
    (∀ e ∈ (run_completion c raw2 md2 t2 out2 hashFn).1,
      isWriteTo ctx_path e = false) := by
  obtain ⟨r1, a1, htr1, -⟩ := run_completion_trace_shape c raw1 md1 t1 out1 hashFn
  obtain ⟨r2, a2, htr2, -⟩ := run_completion_trace_shape c raw2 md2 t2 out2 hashFn
  refine ⟨artifact_path_ne t1 t2 h1 h2 hne, ?_, ?_, ?_, ?_⟩
  · rw [htr1]; simp [artifact_write_paths]
  · rw [htr2]; simp [artifact_write_paths]
  · intro e he
    rw [htr1] at he
    simp only [List.mem_cons, List.not_mem_nil, or_false] at he
    rcases he with rfl | rfl | rfl
    · rfl
    · simp [isWriteTo]; exact fun hh => hc1 hh.symm
    · simp [isWriteTo]; exact fun hh => ha1 hh.symm
  · intro e he
    rw [htr2] at he
    simp only [List.mem_cons, List.not_mem_nil, or_false] at he
    rcases he with rfl | rfl | rfl
    · rfl
    · simp [isWriteTo]; exact fun hh => hc2 hh.symm
    · simp [isWriteTo]; exact fun hh => ha2 hh.symm

/-- Witness for C6: two concrete runs one millisecond apart get distinct
artifact paths. -/
theorem C6_artifact_writer_append_only_witness :
    artifact_path ⟨2024, 1, 2, 3, 4, 5, 6000⟩ ≠
      artifact_path ⟨2024, 1, 2, 3, 4, 5, 7000⟩ :=
  (C6_artifact_writer_append_only
    ⟨2024, 1, 2, 3, 4, 5, 6000⟩ ⟨2024, 1, 2, 3, 4, 5, 7000⟩
    (by decide) (by decide) (by decide)
    ⟨"", [], [], [], [], []⟩ "x" "y"
    ⟨none, none, none, none⟩ ⟨none, none, none, none⟩
    "out1.json" "out2.json" (fun _ => "h") "ctx.json"
    (by decide) (by decide) (by decide) (by decide)).1

/-! ## Context persistence (`src/col/storage.py`)

The file system is an association list from path to JSON document; a write
prepends and `List.lookup` reads the most recent write; a removal filters
the path out. `save_context` opens `path.with_suffix(".tmp")` for writing —
truncating whatever pre-existed there — dumps the serialized context into
it, and then renames it onto `path` with `Path.replace`, which overwrites
the destination and makes the temp path cease to exist. -/

/-- The JSON document `save_context` writes: `context.model_dump()` with
the fields in their schema declaration order. -/
def dump_context (c : Context) : Json :=
  .obj [("goal", .str c.goal),
        ("constraints", .arr (c.constraints.map .str)),
        ("facts", .arr (c.facts.map .str)),
        ("decisions", .arr (c.decisions.map .str)),
        ("tool_outputs", .arr (c.tool_outputs.map .str)),
        ("open_questions", .arr (c.open_questions.map .str))]

/-- The final component of a path: the characters after the last slash. -/
def path_name (path : String) : List Char :=
  (path.toList.reverse.takeWhile fun c => c ≠ '/').reverse

/-- The extension of a final component, as the pathlib `suffix` property
computes it: the part from the last dot when that dot is neither the first
nor the last character of the name, empty otherwise. -/
def name_suffix (name : List Char) : List Char :=
  let rext := name.reverse.takeWhile fun c => c ≠ '.'
  if rext.length = name.length then []
  else if rext.length = 0 then []
  else if rext.length = name.length - 1 then []
  else '.' :: rext.reverse

/-- Embeds `path.with_suffix(".tmp")` (`storage.py` line 42): in the final
component the old extension is replaced by `.tmp`, or `.tmp` is appended
when there is none; the ValueError branches of pathlib for pathological
names are outside the model. -/
def with_suffix_tmp (path : String) : String :=
  let chars := path.toList
  let name := path_name path
  let dir := chars.take (chars.length - name.length)
  let ext := name_suffix name
  String.mk (dir ++ name.take (name.length - ext.length) ++ ".tmp".toList)

/-- Open a path for writing and dump a document: the path now holds the
document, truncating any previous contents. -/
def fs_write (fs : List (String × Json)) (path : String) (doc : Json) :
    List (String × Json) :=
  (path, doc) :: fs

/-- A path ceases to exist. -/
def fs_remove (fs : List (String × Json)) (path : String) :
    List (String × Json) :=
  fs.filter fun kv => kv.1 ≠ path

/-- Embeds `Path.replace` (`storage.py` line 48): the document at `src`
moves to `dst`, overwriting any destination; `src` ceases to exist. A
missing source raises and is unreachable here, since `save_context` has
just written it. -/
def fs_rename (fs : List (String × Json)) (src dst : String) :
    List (String × Json) :=
  match fs.lookup src with
  | some doc => fs_write (fs_remove fs src) dst doc
  | none => fs

/-- Embeds `save_context` (`storage.py` lines 32-48): write the serialized
context to the temp path, then rename the temp path onto `path`. -/
def save_context (fs : List (String × Json)) (path : String) (context : Context) :
    List (String × Json) :=
  let temp := with_suffix_tmp path
  fs_rename (fs_write fs temp (dump_context context)) temp path

/-- Embeds `Path.exists` over the modelled file system. -/
def path_exists (fs : List (String × Json)) (path : String) : Bool :=
  (fs.lookup path).isSome

/-- Embeds `init_context` (`storage.py` lines 51-76): raise FileExistsError
with the source message and touch nothing when the path exists; otherwise
build the all-empty Context, save it at the path and return it. -/
def init_context (fs : List (String × Json)) (path : String) :
    Except String Context × List (String × Json) :=
  if path_exists fs path then
    (.error ("Context file already exists: " ++ path), fs)
  else
    (.ok ⟨"", [], [], [], [], []⟩, save_context fs path ⟨"", [], [], [], [], []⟩)

/-- The net effect of `save_context`: the document lands at `path`, and
whatever existed at the temp path — including the freshly written temp
copy — is gone. -/
theorem save_context_eq (fs : List (String × Json)) (path : String)
    (context : Context) :
    save_context fs path context =
      (path, dump_context context) :: fs_remove fs (with_suffix_tmp path) := by
  simp [save_context, fs_rename, fs_write, fs_remove, List.lookup, List.filter]

theorem lookup_fs_remove_self (p : String) (fs : List (String × Json)) :
    (fs_remove fs p).lookup p = none := by
  induction fs with
  | nil => rfl
  | cons kv rest ih =>
    by_cases h : kv.1 = p
    · simp [fs_remove, List.filter, h] at ih ⊢
      exact ih
    · have hb : (p == kv.1) = false := beq_eq_false_iff_ne.mpr (Ne.symm h)
      simp [fs_remove, List.filter, h, List.lookup, hb] at ih ⊢
      exact ih

theorem lookup_fs_remove_other (p q : String) (hq : q ≠ p)
    (fs : List (String × Json)) :
    (fs_remove fs p).lookup q = fs.lookup q := by
  induction fs with
  | nil => rfl
  | cons kv rest ih =>
    by_cases h : kv.1 = p
    · have hb : (q == p) = false := beq_eq_false_iff_ne.mpr hq
      simp [fs_remove, List.filter, h, List.lookup, hb] at ih ⊢
      exact ih
    · by_cases h2 : q = kv.1
      · simp [fs_remove, List.filter, h, List.lookup, h2]
      · have hb : (q == kv.1) = false := beq_eq_false_iff_ne.mpr h2
        simp [fs_remove, List.filter, h, List.lookup, hb] at ih ⊢
        exact ih

/-- C10: init_context raises FileExistsError and writes nothing when a
file exists at the path (every file, the existing one included, is left as
it was); otherwise it returns the Context with empty goal and all five
sequences empty and persists exactly that document at the path — via the
temp file, which the rename leaves nonexistent — with every path other
than the target and the temp path unchanged. -/
theorem C10_init_context_spec (fs : List (String × Json)) (path : String) :
    (path_exists fs path = true →
      init_context fs path =
        (.error ("Context file already exists: " ++ path), fs)) ∧
    (path_exists fs path = false →
      (init_context fs path).1 = .ok ⟨"", [], [], [], [], []⟩ ∧
      (init_context fs path).2.lookup path =
        some (dump_context ⟨"", [], [], [], [], []⟩) ∧
      (with_suffix_tmp path ≠ path →
        (init_context fs path).2.lookup (with_suffix_tmp path) = none) ∧
      ∀ q, q ≠ path → q ≠ with_suffix_tmp path →
        (init_context fs path).2.lookup q = fs.lookup q) := by
  constructor
  · intro h; simp [init_context, h]
  · intro h
    refine ⟨by simp [init_context, h], ?_, ?_, ?_⟩
    · simp [init_context, h, save_context_eq, List.lookup]
    · intro htp
      have hb : (with_suffix_tmp path == path) = false :=
        beq_eq_false_iff_ne.mpr htp
      simp [init_context, h, save_context_eq, List.lookup, hb,
        lookup_fs_remove_self]
    · intro q hq hqt
      have hb : (q == path) = false := beq_eq_false_iff_ne.mpr hq
      simp [init_context, h, save_context_eq, List.lookup, hb,
        lookup_fs_remove_other _ _ hqt]

/-- Witness for C10 at the empty file system. -/
theorem C10_init_context_spec_witness :
    (init_context [] "ctx.json").1 = .ok ⟨"", [], [], [], [], []⟩ :=
  ((C10_init_context_spec [] "ctx.json").2 rfl).1

end Col
